import Mathlib

/-!
Shallow embedding of the AdaptiFocus backend agents
(`backend/agents/context_agent.py`, `backend/agents/intervention_agent.py`,
`backend/agents/pattern_agent.py`, `backend/config.py`) in Lean 4, together
with theorems settling the behavioural claims about them.

Modelling conventions:
* Python floats are modelled by `ℚ`; Python ints by `ℤ` (or `ℕ` for counts).
  `int(x)` applied to a non-negative float is `Int.floor`.
* `round(x, 3)` is modelled by `round3` below (round half up at the third
  decimal).  Python rounds half to even on the binary float value; no claim
  in this development evaluates a value lying on an exact half-thousandth
  boundary, so the two agree everywhere they are used here.
* Python regular-expression matching (`re.search(pattern, title, re.IGNORECASE)`)
  is an external library call; it is modelled by an oracle parameter
  `rmatch : String → String → Bool` (pattern, title ↦ matched).  The keyword
  pattern lists themselves are carried verbatim from the source.
* The optional Gemini LLM classifier (`_ask_gemini_classification`) is an
  external service; it is modelled by a flag `llmConfigured : Bool`
  (genai importable AND `GEMINI_API_KEY` set) and an oracle
  `llm : String → String` giving the classifier's answer for a title.
* The human-readable `reasons` list and intervention `message` strings are
  presentation-only and are read by no claim; they are omitted from the
  embedded result records.
* In the Python dicts, `domain` fields reaching the agents are either `None`
  or a non-empty lower-cased hostname (`data.get("current_domain") or
  _extract_domain(url)`); they are modelled as `Option String`.
-/

namespace AdaptiFocus

/-- Rounding to three decimal places, modelling Python `round(x, 3)`
(half-up on exact rationals; see the file comment for the half-even caveat). -/
def round3 (q : ℚ) : ℚ := (⌊q * 1000 + 1 / 2⌋ : ℚ) / 1000

/-- Rounding to an integer, modelling Python `round(x)` on non-boundary values. -/
def roundInt (q : ℚ) : ℤ := ⌊q + 1 / 2⌋

namespace Config

/-- Dwell seconds before a nudge (backend/config.py). -/
def NUDGE_THRESHOLD_SECONDS : ℤ := 30

/-- Dwell seconds before a warn (backend/config.py). -/
def WARN_THRESHOLD_SECONDS : ℤ := 120

/-- Dwell seconds before a soft block (backend/config.py). -/
def SOFT_BLOCK_THRESHOLD_SECONDS : ℤ := 300

/-- Dwell seconds before a hard block (backend/config.py). -/
def HARD_BLOCK_THRESHOLD_SECONDS : ℤ := 600

/-- Escalation ranks of the intervention levels (backend/config.py,
`INTERVENTION_LEVELS`). -/
def INTERVENTION_LEVELS : List (String × ℕ) :=
  [("none", 0), ("nudge", 1), ("warn", 2), ("soft_block", 3), ("hard_block", 4)]

end Config

namespace ContextAgent

/-- Study/productivity domains (context_agent.py `STUDY_DOMAINS`). -/
def STUDY_DOMAINS : List String :=
  ["scholar.google.com", "arxiv.org", "ieee.org", "ieeexplore.ieee.org",
   "acm.org", "dl.acm.org", "researchgate.net", "semanticscholar.org",
   "sciencedirect.com", "springer.com", "jstor.org",
   "github.com", "gitlab.com", "stackoverflow.com", "stackexchange.com",
   "developer.mozilla.org", "docs.python.org", "devdocs.io",
   "docs.google.com", "sheets.google.com", "slides.google.com",
   "notion.so", "overleaf.com", "sharelatex.com",
   "coursera.org", "edx.org", "udemy.com", "khanacademy.org",
   "leetcode.com", "hackerrank.com", "geeksforgeeks.org",
   "mit.edu", "ocw.mit.edu", "stanford.edu", "harvard.edu",
   "ox.ac.uk", "cam.ac.uk", "berkeley.edu"]

/-- Content-dependent ("ambiguous") domains (context_agent.py `MIXED_DOMAINS`). -/
def MIXED_DOMAINS : List String :=
  ["youtube.com", "reddit.com", "medium.com", "quora.com",
   "twitter.com", "x.com"]

/-- Distraction domains (context_agent.py `DISTRACTION_DOMAINS`). -/
def DISTRACTION_DOMAINS : List String :=
  ["facebook.com", "instagram.com", "tiktok.com",
   "netflix.com", "hulu.com", "twitch.tv", "9gag.com",
   "buzzfeed.com", "disneyplus.com", "primevideo.com"]

/-- Severe/adult domains (context_agent.py `ADULT_DOMAINS`). -/
def ADULT_DOMAINS : List String :=
  ["pornhub.com", "xvideos.com", "xnxx.com", "xhamster.com",
   "redtube.com", "youporn.com", "chaturbate.com", "onlyfans.com"]

/-- Study keyword regex patterns (context_agent.py `STUDY_KEYWORDS`);
the `\x7b`/`\x7d` escapes are the literal brace characters of the
course-number pattern. -/
def STUDY_KEYWORDS : List String :=
  ["\\b(algorithm|data\\s*structure|machine\\s*learning|deep\\s*learning|neural\\s*network)s?\\b",
   "\\b(research|paper|thesis|dissertation|survey|abstract)s?\\b",
   "\\b(programming|coding|software|developer|engineering)s?\\b",
   "\\b(lecture|tutorial|course|lesson|class|assignment|homework|syllabus)s?\\b",
   "\\b(database|network|security|system\\s*design|architecture)s?\\b",
   "\\b(python|java|javascript|typescript|c\\+\\+|rust|golang|react|node)s?\\b",
   "\\b(ieee|acm|arxiv|conference|journal|proceedings)s?\\b",
   "\\b(exam|quiz|test|study|review|notes|textbook)s?\\b",
   "\\b(math|calculus|algebra|statistics|probability|physics|chemistry|biology)s?\\b",
   "\\b(MIT|Stanford|Harvard|Oxford|Cambridge|Berkeley)\\b",
   "\\b(CS\\s?\\d|6\\.\\d\x7b3\x7d|CS\\d\x7b2,3\x7d|COMP\\s?\\d|EE\\s?\\d|MATH\\s?\\d)\\b",
   "\\b(introduction\\s+to|fundamentals\\s+of|principles\\s+of|learn)\\b",
   "\\b(how\\s+to\\s+(code|program|build|implement|solve|debug))s?\\b",
   "\\b(documentation|docs|reference|guide|manual|handbook|API)s?\\b",
   "\\b(open\\s*courseware|OCW|MOOC|coursework|curriculum)s?\\b",
   "\\b(analysis|computing|informatics|data\\s*science|AI|NLP|CV)\\b"]

/-- Distraction keyword regex patterns (context_agent.py `DISTRACTION_KEYWORDS`). -/
def DISTRACTION_KEYWORDS : List String :=
  ["\\b(viral|meme|celebrity|gossip|prank|fails?|bloopers?)s?\\b",
   "\\b(gaming|gameplay|twitch|lets?\\s*play|walkthrough|speedrun)s?\\b",
   "\\b(funny|comedy|entertainment|trending|react(ion)?s?)s?\\b",
   "\\b(shopping|sale|discount|deal|coupon|unboxing)s?\\b",
   "\\b(drama|reality\\s*TV|vlog|mukbang|ASMR|compilation)s?\\b",
   "\\b(shorts|reel|story|tiktok|snap)s?\\b"]

/-- Severe/adult keyword regex patterns (context_agent.py `ADULT_KEYWORDS`). -/
def ADULT_KEYWORDS : List String :=
  ["\\b(porn|porno|pornography|xxx|nsfw|sex|camgirl|adult\\s*video)s?\\b"]

/-- Python `s.endswith(t)`: character-level suffix test. -/
def strEndsWith (s t : String) : Bool := t.data.isSuffixOf s.data

/-- Embedding of `ContextAgent._score_domain`: exact membership checks in
priority order adult, study, mixed, distraction, then `endswith("." + d)`
suffix checks in the same order with reduced study/distraction magnitude. -/
def score_domain (domain : Option String) : ℚ :=
  match domain with
  | none => 0
  | some d =>
    if d = "" then 0
    else if d ∈ ADULT_DOMAINS then -2
    else if d ∈ STUDY_DOMAINS then 0.8
    else if d ∈ MIXED_DOMAINS then 0
    else if d ∈ DISTRACTION_DOMAINS then -0.8
    else if ADULT_DOMAINS.any (fun dd => strEndsWith d ("." ++ dd)) then -2
    else if STUDY_DOMAINS.any (fun sd => strEndsWith d ("." ++ sd)) then 0.6
    else if MIXED_DOMAINS.any (fun md => strEndsWith d ("." ++ md)) then 0
    else if DISTRACTION_DOMAINS.any (fun dd => strEndsWith d ("." ++ dd)) then -0.6
    else 0

/-- Embedding of `ContextAgent._score_title_regex`, parameterised by the
regex-match oracle `rmatch pattern title` (case-insensitive `re.search`). -/
def score_title_regex (rmatch : String → String → Bool) (title : String) : ℚ :=
  if title = "" then 0
  else if ADULT_KEYWORDS.any (fun kw => rmatch kw title) then -2
  else
    let study_hits : ℕ := STUDY_KEYWORDS.countP (fun kw => rmatch kw title)
    let distraction_hits : ℕ := DISTRACTION_KEYWORDS.countP (fun kw => rmatch kw title)
    if distraction_hits < study_hits then min 0.7 ((study_hits : ℚ) * 0.2)
    else if study_hits < distraction_hits then max (-0.7) ((distraction_hits : ℚ) * (-0.2))
    else 0

/-- Stop words removed before keyword-overlap relevance
(context_agent.py `_compute_topic_relevance`). -/
def STOP_WORDS : List String :=
  ["the", "a", "an", "in", "on", "at", "to", "for", "of",
   "and", "or", "is", "it", "with", "-", "|", "—"]

/-- Lower-cased whitespace-split word set of a string, modelling
`set(s.lower().split())` (Python `split()` drops empty fields). -/
def wordSet (s : String) : List String :=
  ((s.toLower.split Char.isWhitespace).filter (fun w => w ≠ "")).dedup

/-- Embedding of `ContextAgent._compute_topic_relevance`: stop-word-free
keyword overlap between topic and title, as a fraction of the topic words. -/
def compute_topic_relevance (topic title : String) : ℚ :=
  let topic_words := (wordSet topic).filter (fun w => w ∉ STOP_WORDS)
  let title_words := (wordSet title).filter (fun w => w ∉ STOP_WORDS)
  if topic_words = [] then 0
  else
    let overlap := topic_words.filter (fun w => w ∈ title_words)
    (overlap.length : ℚ) / (topic_words.length : ℚ)

/-- Embedding of `ContextAgent._score_trajectory`: mean of ±1/0 domain scores
of the last five recent domains, with later domains weighted more heavily. -/
def score_trajectory (recent_domains : List String) : ℚ :=
  if recent_domains = [] then 0
  else
    let lastFive := recent_domains.drop (recent_domains.length - 5)
    let scores : List ℚ := lastFive.map (fun d =>
      if d ∈ STUDY_DOMAINS then 1 else if d ∈ DISTRACTION_DOMAINS then -1 else 0)
    if scores = [] then 0
    else
      let weighted := ((List.range scores.length).zip scores).foldl
        (fun acc p => acc + p.2 * ((p.1 : ℚ) + 1)) 0
      let max_weight := ((List.range scores.length).map (fun i => (i : ℚ) + 1)).sum
      if 0 < max_weight then weighted / max_weight else 0

/-- Input record of `ContextAgent.analyze` (after Python-level defaulting:
`current_title` collapses `None` to `""`; `current_domain` is the resolved
domain of the current page). -/
structure ContextInput where
  current_title : String
  current_domain : Option String
  study_topic : Option String
  session_active : Bool
  recent_domains : List String

/-- Output record of `ContextAgent.analyze` (the presentation-only
`reasons` list is omitted). -/
structure ContextResult where
  classification : String
  confidence : ℚ
  topic_relevance : ℚ
  context_score : ℚ
  is_adult : Bool
deriving DecidableEq

/-- Exact-membership rules of the domain scorer in the priority order the
spec states: severe → -2.0, study → 0.8, ambiguous → 0.0, distraction → -0.8. -/
def EXACT_RULES : List (List String × ℚ) :=
  [(ADULT_DOMAINS, -2), (STUDY_DOMAINS, 0.8), (MIXED_DOMAINS, 0), (DISTRACTION_DOMAINS, -0.8)]

/-- Suffix-membership rules in the priority order the spec states:
severe → -2.0, study → 0.6, ambiguous → 0.0, distraction → -0.6. -/
def SUFFIX_RULES : List (List String × ℚ) :=
  [(ADULT_DOMAINS, -2), (STUDY_DOMAINS, 0.6), (MIXED_DOMAINS, 0), (DISTRACTION_DOMAINS, -0.6)]

/-- Score of the first rule whose category contains the hostname exactly. -/
def firstExact (d : String) : List (List String × ℚ) → Option ℚ
  | [] => none
  | (set, q) :: rest => if d ∈ set then some q else firstExact d rest

/-- Score of the first rule with a registered domain the hostname is a
subdomain of (hostname ends with "." + registered domain). -/
def firstSuffix (d : String) : List (List String × ℚ) → Option ℚ
  | [] => none
  | (set, q) :: rest =>
    if set.any (fun m => strEndsWith d ("." ++ m)) then some q else firstSuffix d rest

/-- Domain scorer as the spec words it: the first exact-membership rule that
fires, else the first suffix rule that fires, else 0; absent or empty
hostname gives 0. -/
def score_domain_spec (domain : Option String) : ℚ :=
  match domain with
  | none => 0
  | some d =>
    if d = "" then 0
    else
      match firstExact d EXACT_RULES with
      | some q => q
      | none =>
        match firstSuffix d SUFFIX_RULES with
        | some q => q
        | none => 0

/-- Title scorer as the claim words it: -2.0 as soon as a severe/adult
pattern matches; otherwise with s distinct study patterns and d distinct
distraction patterns matched, min(0.7, s×0.2) when s > d, max(-0.7, d×-0.2)
when d > s, and 0.0 on a tie or an empty title. -/
def score_title_regex_spec (rmatch : String → String → Bool) (title : String) : ℚ :=
  if title = "" then 0
  else if ADULT_KEYWORDS.any (fun kw => rmatch kw title) then -2
  else
    let s := (STUDY_KEYWORDS.filter (fun kw => rmatch kw title)).length
    let d := (DISTRACTION_KEYWORDS.filter (fun kw => rmatch kw title)).length
    if d < s then min 0.7 ((s : ℚ) * 0.2)
    else if s < d then max (-0.7) ((d : ℚ) * (-0.2))
    else 0

/-- Title score as computed inside `ContextAgent.analyze`: for a mixed
domain with the Gemini classifier configured, the LLM verdict is used
("distraction" ↦ -0.8, "study" ↦ 0.8, otherwise regex fallback); in every
other case the regex scorer is used. -/
def titleScoreOf (rmatch : String → String → Bool) (llmConfigured : Bool)
    (llm : String → String) (inp : ContextInput) : ℚ :=
  let mixed : Bool := match inp.current_domain with
    | some d => decide (d ∈ MIXED_DOMAINS)
    | none => false
  if mixed && llmConfigured then
    let r := llm inp.current_title
    if r = "distraction" then -0.8
    else if r = "study" then 0.8
    else score_title_regex rmatch inp.current_title
  else score_title_regex rmatch inp.current_title

/-- Topic relevance as computed inside `ContextAgent.analyze`
(0 unless both a study topic and a title are present). -/
def topic_relevanceOf (inp : ContextInput) : ℚ :=
  match inp.study_topic with
  | some topic =>
    if topic ≠ "" ∧ inp.current_title ≠ "" then
      compute_topic_relevance topic inp.current_title
    else 0
  | none => 0

/-- The score list `ContextAgent.analyze` accumulates before aggregation:
domain score, title score, then conditionally the title-over-domain
override bonus/penalty, the topic-relevance boost, the in-session penalty
and the weighted trajectory signal. -/
def scoresOf (rmatch : String → String → Bool) (llmConfigured : Bool)
    (llm : String → String) (inp : ContextInput) : List ℚ :=
  let domain_score := score_domain inp.current_domain
  let title_score := titleScoreOf rmatch llmConfigured llm inp
  let scores : List ℚ := [domain_score, title_score]
  let scores :=
    if domain_score ≤ 0 ∧ 0 < title_score then scores ++ [1 + title_score]
    else if 0 ≤ domain_score ∧ title_score < 0 then scores ++ [-0.8 + title_score]
    else scores
  let scores :=
    if 0.3 < topic_relevanceOf inp then
      scores ++ [if domain_score < 0 then 0.8 else 0.5]
    else scores
  let scores :=
    if inp.session_active ∧ domain_score < 0 ∧ title_score ≤ 0 then
      scores ++ [-0.3]
    else scores
  let trajectory_score := score_trajectory inp.recent_domains
  if 0.1 < |trajectory_score| then scores ++ [trajectory_score * 0.5]
  else scores

/-- Embedding of `ContextAgent.analyze`: domain and title scores, the
title-over-domain override bonuses, topic-relevance boost, in-session
penalty and trajectory signal are averaged and clamped to [-1, 1], unless a
severe/adult signal (score ≤ -2 on domain or title) forces a maximal
distraction verdict. -/
def analyze (rmatch : String → String → Bool) (llmConfigured : Bool)
    (llm : String → String) (inp : ContextInput) : ContextResult :=
  if score_domain inp.current_domain ≤ -2 ∨ titleScoreOf rmatch llmConfigured llm inp ≤ -2 then
    { classification := "distraction"
      confidence := round3 1
      topic_relevance := round3 (topic_relevanceOf inp)
      context_score := round3 (-1)
      is_adult := true }
  else
    let scores := scoresOf rmatch llmConfigured llm inp
    let context_score := scores.sum / (max scores.length 1 : ℕ)
    let context_score := max (-1) (min 1 context_score)
    let classification :=
      if 0.2 < context_score then "study"
      else if context_score < -0.2 then "distraction"
      else "neutral"
    let confidence := min 1 (|context_score| * 1.5)
    { classification := classification
      confidence := round3 confidence
      topic_relevance := round3 (topic_relevanceOf inp)
      context_score := round3 context_score
      is_adult := false }

end ContextAgent

namespace InterventionAgent

/-- Input record of `InterventionAgent.analyze`.  The `classification` and
`confidence` fields of the context-result dict may be missing (`Option`,
Python-defaulted to "neutral" and 0); `domain_risk_scores` is the
pattern-result dict, modelled as an association list.
`total_distraction_seconds_today` and `interventions_today` are carried for
fidelity; the source reads the latter only to rotate the presentation-only
message strings. -/
structure InterventionInput where
  context_classification : Option String
  context_confidence : Option ℚ
  domain_risk_scores : List (String × ℚ)
  time_on_current_seconds : ℤ
  current_domain : Option String
  session_active : Bool
  total_distraction_seconds_today : ℤ
  interventions_today : ℕ

/-- Output record of `InterventionAgent.analyze` (the presentation-only
`message` string is omitted). -/
structure InterventionResult where
  should_intervene : Bool
  level : String
  urgency : ℚ
  cooldown_seconds : ℤ
deriving DecidableEq

/-- Embedding of `InterventionAgent.analyze`: gate on a confident
distraction verdict, tighten the four config thresholds by the learned
domain risk (and by 0.7 during an active session, truncating to `int` at
each step exactly as the source does), then pick the highest threshold the
dwell time meets. -/
def analyze (inp : InterventionInput) : InterventionResult :=
  let classification := inp.context_classification.getD "neutral"
  let confidence := inp.context_confidence.getD 0
  if classification ≠ "distraction" ∨ confidence < 0.3 then
    { should_intervene := false, level := "none", urgency := 0, cooldown_seconds := 30 }
  else
    let domain_risk :=
      match inp.current_domain with
      | some d => (inp.domain_risk_scores.lookup d).getD 0.5
      | none => 0.5
    let risk_multiplier := max 0.5 (1 - domain_risk * 0.5)
    let adjusted_nudge := ⌊(Config.NUDGE_THRESHOLD_SECONDS : ℚ) * risk_multiplier⌋
    let adjusted_warn := ⌊(Config.WARN_THRESHOLD_SECONDS : ℚ) * risk_multiplier⌋
    let adjusted_soft := ⌊(Config.SOFT_BLOCK_THRESHOLD_SECONDS : ℚ) * risk_multiplier⌋
    let adjusted_hard := ⌊(Config.HARD_BLOCK_THRESHOLD_SECONDS : ℚ) * risk_multiplier⌋
    let adjusted_nudge := if inp.session_active then ⌊(adjusted_nudge : ℚ) * 0.7⌋ else adjusted_nudge
    let adjusted_warn := if inp.session_active then ⌊(adjusted_warn : ℚ) * 0.7⌋ else adjusted_warn
    let adjusted_soft := if inp.session_active then ⌊(adjusted_soft : ℚ) * 0.7⌋ else adjusted_soft
    let adjusted_hard := if inp.session_active then ⌊(adjusted_hard : ℚ) * 0.7⌋ else adjusted_hard
    let t := inp.time_on_current_seconds
    if adjusted_hard ≤ t then
      { should_intervene := true, level := "hard_block", urgency := 1, cooldown_seconds := 0 }
    else if adjusted_soft ≤ t then
      { should_intervene := true, level := "soft_block", urgency := 0.8, cooldown_seconds := 15 }
    else if adjusted_warn ≤ t then
      { should_intervene := true, level := "warn", urgency := 0.6, cooldown_seconds := 30 }
    else if adjusted_nudge ≤ t then
      { should_intervene := true, level := "nudge", urgency := 0.3, cooldown_seconds := 60 }
    else
      { should_intervene := false, level := "none", urgency := 0,
        cooldown_seconds := max 5 (adjusted_nudge - t) }

/-- Rank of an intervention level under the escalation order of
`config.INTERVENTION_LEVELS` (none < nudge < warn < soft_block < hard_block). -/
def levelRank (level : String) : ℕ := (Config.INTERVENTION_LEVELS.lookup level).getD 0

/-- Adjusted threshold for one base threshold, written from the spec: the
risk for the current domain (default 0.5) gives the multiplier
max(0.5, 1 − risk×0.5); an active session multiplies again by 0.7; each
product is truncated to an integer as in the source. -/
def adjustedThresholdSpec (inp : InterventionInput) (base : ℤ) : ℤ :=
  let risk :=
    match inp.current_domain with
    | some d => (inp.domain_risk_scores.lookup d).getD 0.5
    | none => 0.5
  let afterRisk := ⌊(base : ℚ) * max 0.5 (1 - risk * 0.5)⌋
  if inp.session_active then ⌊(afterRisk : ℚ) * 0.7⌋ else afterRisk

/-- The intervention policy as the spec words it: gate on a confident
distraction verdict, then compare the dwell time against the four adjusted
thresholds from highest to lowest; below the nudge threshold, no
intervention with cooldown max(5, adjusted_nudge − dwell). -/
def analyzeSpec (inp : InterventionInput) : InterventionResult :=
  if inp.context_classification.getD "neutral" ≠ "distraction" ∨
      inp.context_confidence.getD 0 < 0.3 then
    { should_intervene := false, level := "none", urgency := 0, cooldown_seconds := 30 }
  else
    if adjustedThresholdSpec inp Config.HARD_BLOCK_THRESHOLD_SECONDS ≤
        inp.time_on_current_seconds then
      { should_intervene := true, level := "hard_block", urgency := 1, cooldown_seconds := 0 }
    else if adjustedThresholdSpec inp Config.SOFT_BLOCK_THRESHOLD_SECONDS ≤
        inp.time_on_current_seconds then
      { should_intervene := true, level := "soft_block", urgency := 0.8, cooldown_seconds := 15 }
    else if adjustedThresholdSpec inp Config.WARN_THRESHOLD_SECONDS ≤
        inp.time_on_current_seconds then
      { should_intervene := true, level := "warn", urgency := 0.6, cooldown_seconds := 30 }
    else if adjustedThresholdSpec inp Config.NUDGE_THRESHOLD_SECONDS ≤
        inp.time_on_current_seconds then
      { should_intervene := true, level := "nudge", urgency := 0.3, cooldown_seconds := 60 }
    else
      { should_intervene := false, level := "none", urgency := 0,
        cooldown_seconds := max 5 (adjustedThresholdSpec inp Config.NUDGE_THRESHOLD_SECONDS -
          inp.time_on_current_seconds) }

end InterventionAgent

namespace PatternAgent

/-- Default known distraction domains (pattern_agent.py `DISTRACTION_DOMAINS`;
note this set differs from the context agent's and includes youtube.com). -/
def DISTRACTION_DOMAINS : List String :=
  ["youtube.com", "facebook.com", "twitter.com", "x.com",
   "instagram.com", "tiktok.com", "reddit.com", "netflix.com",
   "hulu.com", "twitch.tv", "9gag.com", "buzzfeed.com"]

/-- Default known productive domains (pattern_agent.py `PRODUCTIVE_DOMAINS`). -/
def PRODUCTIVE_DOMAINS : List String :=
  ["github.com", "gitlab.com", "stackoverflow.com", "stackexchange.com",
   "docs.google.com", "notion.so", "scholar.google.com",
   "arxiv.org", "ieee.org", "acm.org", "medium.com"]

/-- One browsing event as consumed by `PatternAgent.analyze`.  `domain` is
the resolved domain `ev.get("domain") or _extract_domain(ev.get("url"))`
(an `Option`, `none` when both are missing); `timestamp_hour` is the result
of `_hour_bucket` on the event timestamp (`none` when absent/unparsable). -/
structure BrowseEvent where
  domain : Option String
  duration_seconds : ℤ
  timestamp_hour : Option ℕ
  is_distraction : Bool
deriving DecidableEq

/-- Truthiness of the resolved event domain combined with the distraction
flag: `ev.get("is_distraction") or (domain and domain in DISTRACTION_DOMAINS)`. -/
def evIsDistraction (ev : BrowseEvent) : Bool :=
  ev.is_distraction ||
    (match ev.domain with
     | some d => d ≠ "" && d ∈ DISTRACTION_DOMAINS
     | none => false)

/-- Resolved non-empty event domain, `none` when absent or empty
(Python truthiness of the `domain` string). -/
def evDomain (ev : BrowseEvent) : Option String :=
  match ev.domain with
  | some d => if d = "" then none else some d
  | none => none

/-- Event duration as used throughout the agent: `max(0, int(duration))`. -/
def evDuration (ev : BrowseEvent) : ℤ := max 0 ev.duration_seconds

/-- Increment the count of a key in an association list, appending the key
with count 1 when absent — the update behaviour of a Python
`collections.Counter` (insertion order is first-occurrence order). -/
def bump {α : Type} [DecidableEq α] (k : α) : List (α × ℕ) → List (α × ℕ)
  | [] => [(k, 1)]
  | (a, c) :: t => if a = k then (a, c + 1) :: t else (a, c) :: bump k t

/-- Counter of a list of keys, in first-occurrence order. -/
def tally {α : Type} [DecidableEq α] (l : List α) : List (α × ℕ) :=
  l.foldl (fun acc k => bump k acc) []

/-- Insert into a list kept in descending `key` order, after any entries of
equal key (the stable behaviour of Python `sorted(..., reverse=True)` /
`Counter.most_common`). -/
def insertByDesc {α : Type} (key : α → ℚ) (x : α) : List α → List α
  | [] => [x]
  | y :: ys => if key x ≤ key y then y :: insertByDesc key x ys else x :: y :: ys

/-- Stable sort into descending `key` order. -/
def sortByDesc {α : Type} (key : α → ℚ) (l : List α) : List α :=
  l.foldl (fun acc x => insertByDesc key x acc) []

/-- Python `Counter.most_common(n)`: the n entries of largest count,
stably ordered by descending count. -/
def mostCommon {α : Type} (n : ℕ) (counts : List (α × ℕ)) : List (α × ℕ) :=
  (sortByDesc (fun p => (p.2 : ℚ)) counts).take n

/-- Chronologically ordered domain subsequence of the distraction events
(pattern_agent.py `_detect_distraction_chains`, sequence-building loop). -/
def chainSequence (events : List BrowseEvent) : List String :=
  events.filterMap (fun ev =>
    match evDomain ev with
    | some d => if evIsDistraction ev then some d else none
    | none => none)

/-- Adjacent domain pairs of a sequence, self-loops dropped. -/
def bigramList (seq : List String) : List (String × String) :=
  (seq.zip seq.tail).filter (fun p => p.1 ≠ p.2)

/-- Adjacent domain triples of a sequence, dropping triples that collapse
to a single domain (`len(set(triple)) > 1` in the source). -/
def trigramList (seq : List String) : List (String × String × String) :=
  ((seq.zip (seq.tail.zip seq.tail.tail)).filter
    (fun p => ¬(p.1 = p.2.1 ∧ p.2.1 = p.2.2)))

/-- Embedding of `PatternAgent._detect_distraction_chains` (with the default
`min_chain_length = 2`): top-5 trigrams with count ≥ 2, then top-5 bigrams
with count ≥ 3, each taken from `most_common(5)` of the respective counter. -/
def detect_distraction_chains (events : List BrowseEvent) : List (List String) :=
  let sequence := chainSequence events
  if sequence.length < 2 then []
  else
    let bigrams := tally (bigramList sequence)
    let trigrams := tally (trigramList sequence)
    ((mostCommon 5 trigrams).filter (fun tc => 2 ≤ tc.2)).map
      (fun tc => [tc.1.1, tc.1.2.1, tc.1.2.2])
    ++ ((mostCommon 5 bigrams).filter (fun pc => 3 ≤ pc.2)).map
      (fun pc => [pc.1.1, pc.1.2])

/-- Distraction-chain miner as the claim words it: over the ordered domain
subsequence of the distraction events, report up to 5 trigrams occurring at
least twice followed by up to 5 bigrams occurring at least three times, in
descending frequency. -/
def chains_spec (events : List BrowseEvent) : List (List String) :=
  let sequence := chainSequence events
  if sequence.length < 2 then []
  else
    let trigramsSorted := sortByDesc (fun p => (p.2 : ℚ)) (tally (trigramList sequence))
    let bigramsSorted := sortByDesc (fun p => (p.2 : ℚ)) (tally (bigramList sequence))
    ((trigramsSorted.filter (fun tc => 2 ≤ tc.2)).take 5).map
      (fun tc => [tc.1.1, tc.1.2.1, tc.1.2.2])
    ++ ((bigramsSorted.filter (fun pc => 3 ≤ pc.2)).take 5).map
      (fun pc => [pc.1.1, pc.1.2])

/-- Total dwell seconds recorded in a given hour bucket
(pattern_agent.py `_analyze_hourly_vulnerability`, `hour_total`). -/
def hourTotal (events : List BrowseEvent) (h : ℕ) : ℤ :=
  (events.filterMap (fun ev =>
    if ev.timestamp_hour = some h then some (evDuration ev) else none)).sum

/-- Distraction dwell seconds recorded in a given hour bucket. -/
def hourDistraction (events : List BrowseEvent) (h : ℕ) : ℤ :=
  (events.filterMap (fun ev =>
    if ev.timestamp_hour = some h && evIsDistraction ev then some (evDuration ev)
    else none)).sum

/-- Embedding of `PatternAgent._analyze_hourly_vulnerability`: for each hour
0–23, the distraction share of the dwell time, rounded to 3 decimals
(0.0 for hours with no recorded time). -/
def analyze_hourly_vulnerability (events : List BrowseEvent) : List (ℕ × ℚ) :=
  (List.range 24).map (fun h =>
    (h, if 0 < hourTotal events h then
          round3 ((hourDistraction events h : ℚ) / (hourTotal events h : ℚ))
        else 0))

/-- Distinct resolved event domains in first-occurrence order (the insertion
order of the `domain_total` dict). -/
def eventDomains (events : List BrowseEvent) : List String :=
  (events.filterMap evDomain).dedup

/-- Total dwell seconds per domain (pattern_agent.py `_analyze_domain_risks`). -/
def domainTotal (events : List BrowseEvent) (d : String) : ℤ :=
  (events.filterMap (fun ev =>
    if evDomain ev = some d then some (evDuration ev) else none)).sum

/-- Distraction dwell seconds per domain; here the distraction test is
`ev.get("is_distraction") or domain in DISTRACTION_DOMAINS` on the resolved
non-empty domain. -/
def domainDistraction (events : List BrowseEvent) (d : String) : ℤ :=
  (events.filterMap (fun ev =>
    if evDomain ev = some d && (ev.is_distraction || d ∈ DISTRACTION_DOMAINS) then
      some (evDuration ev)
    else none)).sum

/-- Embedding of `PatternAgent._analyze_domain_risks`: per-domain distraction
share of dwell time, rounded to 3 decimals, domains with no recorded time
dropped, sorted by score descending (stably, as `dict(sorted(...))`). -/
def analyze_domain_risks (events : List BrowseEvent) : List (String × ℚ) :=
  sortByDesc (fun p => p.2)
    ((eventDomains events).filterMap (fun d =>
      if 0 < domainTotal events d then
        some (d, round3 ((domainDistraction events d : ℚ) / (domainTotal events d : ℚ)))
      else none))

/-- Durations of the distraction visits to a domain
(pattern_agent.py `_detect_long_dwells`, `domain_durations`). -/
def dwellDurations (events : List BrowseEvent) (d : String) : List ℤ :=
  events.filterMap (fun ev =>
    if evDomain ev = some d && evIsDistraction ev then some (evDuration ev) else none)

/-- Distinct domains with at least one distraction visit, in first-occurrence
order. -/
def dwellDomains (events : List BrowseEvent) : List String :=
  (events.filterMap (fun ev =>
    match evDomain ev with
    | some d => if evIsDistraction ev then some d else none
    | none => none)).dedup

/-- Embedding of `PatternAgent._detect_long_dwells` (default threshold 120s):
domains whose average distraction visit meets the threshold, with the
rounded average, sorted descending by that average. -/
def detect_long_dwells (events : List BrowseEvent) : List (String × ℤ) :=
  sortByDesc (fun p => (p.2 : ℚ))
    ((dwellDomains events).filterMap (fun d =>
      let durations := dwellDurations events d
      let avg : ℚ := if durations = [] then 0
        else (durations.sum : ℚ) / (durations.length : ℚ)
      if 120 ≤ avg then some (d, roundInt avg) else none))

/-- Payload of a discovered pattern entry (the `data` dict of the source,
one shape per pattern type). -/
inductive PatternData where
  | hours (vulnerable_hours : List ℕ)
  | domains (scores : List (String × ℚ))
  | chains (chains : List (List String))
  | dwells (domains : List (String × ℤ))
deriving DecidableEq

/-- One entry of the `patterns` output list (the presentation-only
`description` string is omitted). -/
structure PatternEntry where
  ptype : String
  confidence : ℚ
  data : PatternData
deriving DecidableEq

/-- Output record of `PatternAgent.analyze`. -/
structure PatternResult where
  patterns : List PatternEntry
  hourly_vulnerability : List (ℕ × ℚ)
  domain_risk_scores : List (String × ℚ)
  distraction_chains : List (List String)
deriving DecidableEq

/-- Embedding of `PatternAgent.analyze`: empty history returns the empty
result at once; otherwise the hourly-vulnerability, domain-risk,
distraction-chain and long-dwell analyses run and the qualifying ones are
reported as pattern entries. -/
def analyze (events : List BrowseEvent) : PatternResult :=
  if events.isEmpty then
    { patterns := [], hourly_vulnerability := [], domain_risk_scores := [],
      distraction_chains := [] }
  else
    let hourly_vuln := analyze_hourly_vulnerability events
    let vulnerable_hours := (hourly_vuln.filter (fun p => 0.5 < p.2)).map (fun p => p.1)
    let domain_risks := analyze_domain_risks events
    let high_risk := domain_risks.filter (fun p => 0.6 < p.2)
    let chains := detect_distraction_chains events
    let long_dwell := detect_long_dwells events
    let patterns₁ : List PatternEntry :=
      if vulnerable_hours ≠ [] then
        [{ ptype := "time_vulnerability"
           confidence := round3 (((hourly_vuln.filter (fun p => 0.5 < p.2)).map
             (fun p => p.2)).sum / (vulnerable_hours.length : ℚ))
           data := .hours (sortByDesc (fun h => -(h : ℚ)) vulnerable_hours) }]
      else []
    let patterns₂ : List PatternEntry :=
      if high_risk ≠ [] then
        [{ ptype := "high_risk_domains"
           confidence := round3 ((high_risk.map (fun p => p.2)).sum / (high_risk.length : ℚ))
           data := .domains (high_risk.take 10) }]
      else []
    let patterns₃ : List PatternEntry :=
      if chains ≠ [] then
        [{ ptype := "distraction_chain", confidence := 0.7, data := .chains (chains.take 5) }]
      else []
    let patterns₄ : List PatternEntry :=
      if long_dwell ≠ [] then
        [{ ptype := "long_dwell", confidence := 0.8, data := .dwells (long_dwell.take 10) }]
      else []
    { patterns := patterns₁ ++ patterns₂ ++ patterns₃ ++ patterns₄
      hourly_vulnerability := hourly_vuln
      domain_risk_scores := domain_risks
      distraction_chains := chains }

end PatternAgent

namespace Inputs

/-- Regex-match oracle under which no keyword pattern matches.  This is the
observed behaviour of Python `re` for the bare title "YouTube": none of the
study, distraction or adult keyword patterns of context_agent.py matches it
(case-insensitively). -/
def noRegexMatch : String → String → Bool := fun _ _ => false

/-- Placeholder LLM oracle for runs where the Gemini classifier is not
configured (its value is never consulted when `llmConfigured = false`). -/
def noLLMOracle : String → String := fun _ => "neutral"

/-- The YouTube-homepage input of the spec's ambiguous-domain example and of
the repository's own test (test_context_override.py, "YouTube homepage"):
ambiguous domain, generic title, no study topic, no active session, empty
trajectory. -/
def youtubeHomepage : ContextAgent.ContextInput :=
  { current_title := "YouTube", current_domain := some "youtube.com",
    study_topic := none, session_active := false, recent_domains := [] }

/-- A browsing input on a severe/adult domain with an empty title. -/
def adultDomainInput : ContextAgent.ContextInput :=
  { current_title := "", current_domain := some "pornhub.com",
    study_topic := none, session_active := false, recent_domains := [] }

/-- A confident-distraction intervention input with a long dwell time. -/
def distractionDwell : InterventionAgent.InterventionInput :=
  { context_classification := some "distraction", context_confidence := some 0.5,
    domain_risk_scores := [], time_on_current_seconds := 1000, current_domain := none,
    session_active := false, total_distraction_seconds_today := 0, interventions_today := 0 }

/-- An intervention input whose context-result dict carries neither a
classification nor a confidence field. -/
def missingFieldsInput : InterventionAgent.InterventionInput :=
  { context_classification := none, context_confidence := none,
    domain_risk_scores := [], time_on_current_seconds := 1000, current_domain := none,
    session_active := false, total_distraction_seconds_today := 0, interventions_today := 0 }

/-- One distraction event on a given domain. -/
def distractionEvent (d : String) : PatternAgent.BrowseEvent :=
  { domain := some d, duration_seconds := 10, timestamp_hour := none, is_distraction := true }

/-- The nine-event history youtube → reddit → instagram repeated three times. -/
def spiralEvents : List PatternAgent.BrowseEvent :=
  [distractionEvent "youtube.com", distractionEvent "reddit.com", distractionEvent "instagram.com",
   distractionEvent "youtube.com", distractionEvent "reddit.com", distractionEvent "instagram.com",
   distractionEvent "youtube.com", distractionEvent "reddit.com", distractionEvent "instagram.com"]

end Inputs

/-! Helper lemmas shared by the claim theorems. -/

theorem round3_bounds {q : ℚ} (h1 : -1 ≤ q) (h2 : q ≤ 1) :
    -1 ≤ round3 q ∧ round3 q ≤ 1 := by
  unfold round3
  constructor
  · have h : (-1000 : ℤ) ≤ ⌊q * 1000 + 1 / 2⌋ := by
      rw [Int.le_floor]
      push_cast
      linarith
    have h' : ((-1000 : ℤ) : ℚ) ≤ (⌊q * 1000 + 1 / 2⌋ : ℚ) := by exact_mod_cast h
    push_cast at h'
    linarith
  · have h : ⌊q * 1000 + 1 / 2⌋ ≤ (1000 : ℤ) := by
      have : ⌊q * 1000 + 1 / 2⌋ ≤ ⌊(2001 / 2 : ℚ)⌋ := by
        apply Int.floor_le_floor
        linarith
      have h2001 : ⌊(2001 / 2 : ℚ)⌋ = 1000 := by norm_num
      omega
    have h' : (⌊q * 1000 + 1 / 2⌋ : ℚ) ≤ ((1000 : ℤ) : ℚ) := by exact_mod_cast h
    push_cast at h'
    linarith

/-- C9: PatternAnalyzer applied to an empty event history returns, without
raising, a result with empty patterns, hourly vulnerability, domain risk
scores and distraction chains. -/
theorem pattern_analyze_empty :
    PatternAgent.analyze [] =
      { patterns := [], hourly_vulnerability := [], domain_risk_scores := [],
        distraction_chains := [] } := by
  rfl

/-- C1: whenever the computed domain score or the computed title score is at
most -2.0, ContextScorer classifies as "distraction" with context score -1.0
and confidence 1.0, regardless of the remaining signals. -/
theorem context_severe_override (rmatch : String → String → Bool) (llmC : Bool)
    (llm : String → String) (inp : ContextAgent.ContextInput)
    (h : ContextAgent.score_domain inp.current_domain ≤ -2 ∨
         ContextAgent.titleScoreOf rmatch llmC llm inp ≤ -2) :
    (ContextAgent.analyze rmatch llmC llm inp).classification = "distraction" ∧
    (ContextAgent.analyze rmatch llmC llm inp).context_score = -1 ∧
    (ContextAgent.analyze rmatch llmC llm inp).confidence = 1 := by
  simp only [ContextAgent.analyze]
  rw [if_pos h]
  refine ⟨rfl, ?_, ?_⟩ <;> norm_num [round3]

/-- Witness for C1 at the concrete severe domain pornhub.com. -/
theorem context_severe_override_witness :
    ContextAgent.score_domain Inputs.adultDomainInput.current_domain ≤ -2 ∧
    (ContextAgent.analyze Inputs.noRegexMatch false Inputs.noLLMOracle
        Inputs.adultDomainInput).classification = "distraction" ∧
    (ContextAgent.analyze Inputs.noRegexMatch false Inputs.noLLMOracle
        Inputs.adultDomainInput).context_score = -1 ∧
    (ContextAgent.analyze Inputs.noRegexMatch false Inputs.noLLMOracle
        Inputs.adultDomainInput).confidence = 1 := by
  have hscore : ContextAgent.score_domain Inputs.adultDomainInput.current_domain ≤ -2 := by
    have heq : ContextAgent.score_domain Inputs.adultDomainInput.current_domain = -2 := by
      simp only [Inputs.adultDomainInput, ContextAgent.score_domain]
      rw [if_neg (by decide), if_pos (by decide)]
    rw [heq]
  exact ⟨hscore,
    context_severe_override Inputs.noRegexMatch false Inputs.noLLMOracle
      Inputs.adultDomainInput (Or.inl hscore)⟩

/-- C4: the context score returned by ContextScorer always lies in the
closed interval [-1, 1], for every input combination (and every regex/LLM
oracle behaviour). -/
theorem context_score_clamped (rmatch : String → String → Bool) (llmC : Bool)
    (llm : String → String) (inp : ContextAgent.ContextInput) :
    -1 ≤ (ContextAgent.analyze rmatch llmC llm inp).context_score ∧
    (ContextAgent.analyze rmatch llmC llm inp).context_score ≤ 1 := by
  unfold ContextAgent.analyze
  split_ifs with h
  · constructor <;> norm_num [round3]
  all_goals
    exact round3_bounds (le_max_left _ _) (max_le (by norm_num) (min_le_left _ _))

set_option maxHeartbeats 2000000 in
/-- C5: the domain scorer equals its spec-side priority formulation (exact
membership in order severe, study, ambiguous, distraction, then suffix
membership in the same order with reduced magnitudes, else 0), its value
always lies in {-2, -0.8, -0.6, 0, 0.6, 0.8}, and an absent or empty
hostname scores 0 without raising. -/
theorem domain_scorer_priority (domain : Option String) :
    ContextAgent.score_domain domain = ContextAgent.score_domain_spec domain ∧
    ContextAgent.score_domain domain ∈ ([-2, -0.8, -0.6, 0, 0.6, 0.8] : List ℚ) ∧
    ContextAgent.score_domain none = 0 ∧
    ContextAgent.score_domain (some "") = 0 := by
  refine ⟨?_, ?_, rfl, by decide⟩
  · cases domain with
    | none => rfl
    | some d =>
      simp only [ContextAgent.score_domain, ContextAgent.score_domain_spec,
        ContextAgent.EXACT_RULES, ContextAgent.SUFFIX_RULES,
        ContextAgent.firstExact, ContextAgent.firstSuffix]
      split_ifs <;> rfl
  · cases domain with
    | none =>
      simp only [ContextAgent.score_domain, List.mem_cons]
      norm_num
    | some d =>
      simp only [ContextAgent.score_domain, List.mem_cons]
      split_ifs <;> norm_num

set_option maxHeartbeats 2000000 in
/-- C6: the regex title scorer equals its spec-side formulation (immediate
-2.0 on any severe/adult pattern match, else min(0.7, s×0.2) when the s
study-pattern hits exceed the d distraction-pattern hits, max(-0.7, d×-0.2)
when d exceeds s, and 0.0 on a tie or an empty title), and its value is
either -2.0 or within [-0.7, 0.7]. -/
theorem title_scorer_spec (rmatch : String → String → Bool) (title : String) :
    ContextAgent.score_title_regex rmatch title =
      ContextAgent.score_title_regex_spec rmatch title ∧
    (ContextAgent.score_title_regex rmatch title = -2 ∨
      (-0.7 ≤ ContextAgent.score_title_regex rmatch title ∧
        ContextAgent.score_title_regex rmatch title ≤ 0.7)) := by
  constructor
  · simp only [ContextAgent.score_title_regex, ContextAgent.score_title_regex_spec,
      List.countP_eq_length_filter]
  · simp only [ContextAgent.score_title_regex]
    split_ifs
    · right; norm_num
    · left; rfl
    · right
      refine ⟨le_min (by norm_num) ?_, min_le_left _ _⟩
      have h0 : (0 : ℚ) ≤
          ((ContextAgent.STUDY_KEYWORDS.countP fun kw => rmatch kw title : ℕ) : ℚ) * 0.2 := by
        positivity
      linarith
    · right
      refine ⟨le_max_left _ _, max_le (by norm_num) ?_⟩
      have h0 : (0 : ℚ) ≤
          ((ContextAgent.DISTRACTION_KEYWORDS.countP fun kw => rmatch kw title : ℕ) : ℚ) * 0.2 := by
        positivity
      linarith
    · right; norm_num

/-- C3: any intervention input that is not a confident distraction — in
particular one whose classification or confidence field is missing, which
defaults to "neutral" and 0 — yields no intervention, level "none" and a
30-second cooldown. -/
theorem intervention_gate (inp : InterventionAgent.InterventionInput)
    (h : inp.context_classification.getD "neutral" ≠ "distraction" ∨
         inp.context_confidence.getD 0 < 0.3) :
    InterventionAgent.analyze inp =
      { should_intervene := false, level := "none", urgency := 0, cooldown_seconds := 30 } := by
  simp only [InterventionAgent.analyze]
  rw [if_pos h]

/-- Witness for C3 at an input with both context fields missing. -/
theorem intervention_gate_witness :
    (Inputs.missingFieldsInput.context_classification.getD "neutral" ≠ "distraction" ∨
     Inputs.missingFieldsInput.context_confidence.getD 0 < 0.3) ∧
    InterventionAgent.analyze Inputs.missingFieldsInput =
      { should_intervene := false, level := "none", urgency := 0, cooldown_seconds := 30 } := by
  have h : Inputs.missingFieldsInput.context_classification.getD "neutral" ≠ "distraction" ∨
      Inputs.missingFieldsInput.context_confidence.getD 0 < 0.3 :=
    Or.inl (by decide)
  exact ⟨h, intervention_gate Inputs.missingFieldsInput h⟩

theorem levelRank_none : InterventionAgent.levelRank "none" = 0 := rfl

theorem levelRank_nudge : InterventionAgent.levelRank "nudge" = 1 := rfl

theorem levelRank_warn : InterventionAgent.levelRank "warn" = 2 := rfl

theorem levelRank_soft : InterventionAgent.levelRank "soft_block" = 3 := rfl

theorem levelRank_hard : InterventionAgent.levelRank "hard_block" = 4 := rfl

theorem intervention_analyze_eq_spec (inp : InterventionAgent.InterventionInput) :
    InterventionAgent.analyze inp = InterventionAgent.analyzeSpec inp := rfl

theorem adjustedThresholdSpec_le (inp : InterventionAgent.InterventionInput)
    {b1 b2 : ℤ} (h : b1 ≤ b2) :
    InterventionAgent.adjustedThresholdSpec inp b1 ≤
      InterventionAgent.adjustedThresholdSpec inp b2 := by
  unfold InterventionAgent.adjustedThresholdSpec
  have hm : (0 : ℚ) ≤ max 0.5 (1 -
      (match inp.current_domain with
       | some d => (inp.domain_risk_scores.lookup d).getD 0.5
       | none => 0.5) * 0.5) :=
    le_trans (by norm_num) (le_max_left _ _)
  have h1 : ⌊(b1 : ℚ) * max 0.5 (1 -
      (match inp.current_domain with
       | some d => (inp.domain_risk_scores.lookup d).getD 0.5
       | none => 0.5) * 0.5)⌋ ≤ ⌊(b2 : ℚ) * max 0.5 (1 -
      (match inp.current_domain with
       | some d => (inp.domain_risk_scores.lookup d).getD 0.5
       | none => 0.5) * 0.5)⌋ := by
    apply Int.floor_le_floor
    exact mul_le_mul_of_nonneg_right (by exact_mod_cast h) hm
  split_ifs
  · apply Int.floor_le_floor
    exact mul_le_mul_of_nonneg_right (by exact_mod_cast h1) (by norm_num)
  · exact h1

/-- C2: for confident-distraction inputs, the four config thresholds
30 < 120 < 300 < 600 are each adjusted by the domain-risk multiplier
max(0.5, 1 − risk×0.5) (risk defaulting to 0.5 for an unknown domain) and
by 0.7 during an active session; the level is the highest adjusted
threshold the dwell time meets, intervention happens exactly from the
nudge threshold upward, and below it the cooldown is
max(5, adjusted nudge − dwell). -/
theorem intervention_threshold_policy (inp : InterventionAgent.InterventionInput)
    (hclass : inp.context_classification.getD "neutral" = "distraction")
    (hconf : 0.3 ≤ inp.context_confidence.getD 0) :
    (Config.NUDGE_THRESHOLD_SECONDS = 30 ∧ Config.WARN_THRESHOLD_SECONDS = 120 ∧
     Config.SOFT_BLOCK_THRESHOLD_SECONDS = 300 ∧ Config.HARD_BLOCK_THRESHOLD_SECONDS = 600) ∧
    (InterventionAgent.analyze inp).level =
      (if InterventionAgent.adjustedThresholdSpec inp Config.HARD_BLOCK_THRESHOLD_SECONDS ≤
          inp.time_on_current_seconds then "hard_block"
       else if InterventionAgent.adjustedThresholdSpec inp Config.SOFT_BLOCK_THRESHOLD_SECONDS ≤
          inp.time_on_current_seconds then "soft_block"
       else if InterventionAgent.adjustedThresholdSpec inp Config.WARN_THRESHOLD_SECONDS ≤
          inp.time_on_current_seconds then "warn"
       else if InterventionAgent.adjustedThresholdSpec inp Config.NUDGE_THRESHOLD_SECONDS ≤
          inp.time_on_current_seconds then "nudge"
       else "none") ∧
    (InterventionAgent.analyze inp).should_intervene =
      decide (InterventionAgent.adjustedThresholdSpec inp Config.NUDGE_THRESHOLD_SECONDS ≤
        inp.time_on_current_seconds) ∧
    (inp.time_on_current_seconds <
        InterventionAgent.adjustedThresholdSpec inp Config.NUDGE_THRESHOLD_SECONDS →
      InterventionAgent.analyze inp =
        { should_intervene := false, level := "none", urgency := 0,
          cooldown_seconds := max 5
            (InterventionAgent.adjustedThresholdSpec inp Config.NUDGE_THRESHOLD_SECONDS -
              inp.time_on_current_seconds) }) := by
  have hgate : ¬(inp.context_classification.getD "neutral" ≠ "distraction" ∨
      inp.context_confidence.getD 0 < 0.3) := by
    push_neg
    exact ⟨hclass, hconf⟩
  rw [intervention_analyze_eq_spec]
  unfold InterventionAgent.analyzeSpec
  rw [if_neg hgate]
  refine ⟨⟨rfl, rfl, rfl, rfl⟩, ?_, ?_, ?_⟩
  · split_ifs <;> rfl
  · split_ifs with h1 h2 h3 h4
    · exact (decide_eq_true (le_trans (adjustedThresholdSpec_le inp (by decide)) h1)).symm
    · exact (decide_eq_true (le_trans (adjustedThresholdSpec_le inp (by decide)) h2)).symm
    · exact (decide_eq_true (le_trans (adjustedThresholdSpec_le inp (by decide)) h3)).symm
    · exact (decide_eq_true h4).symm
    · exact (decide_eq_false h4).symm
  · intro ht
    have hN := Int.not_le.mpr ht
    have hW : ¬ InterventionAgent.adjustedThresholdSpec inp Config.WARN_THRESHOLD_SECONDS ≤
        inp.time_on_current_seconds := fun hc =>
      hN (le_trans (adjustedThresholdSpec_le inp (by decide)) hc)
    have hS : ¬ InterventionAgent.adjustedThresholdSpec inp Config.SOFT_BLOCK_THRESHOLD_SECONDS ≤
        inp.time_on_current_seconds := fun hc =>
      hN (le_trans (adjustedThresholdSpec_le inp (by decide)) hc)
    have hH : ¬ InterventionAgent.adjustedThresholdSpec inp Config.HARD_BLOCK_THRESHOLD_SECONDS ≤
        inp.time_on_current_seconds := fun hc =>
      hN (le_trans (adjustedThresholdSpec_le inp (by decide)) hc)
    rw [if_neg hH, if_neg hS, if_neg hW, if_neg hN]

/-- Witness for C2 at a concrete long-dwell confident-distraction input. -/
theorem intervention_threshold_policy_witness :
    (Inputs.distractionDwell.context_classification.getD "neutral" = "distraction" ∧
     0.3 ≤ Inputs.distractionDwell.context_confidence.getD 0) ∧
    (InterventionAgent.analyze Inputs.distractionDwell).level =
      (if InterventionAgent.adjustedThresholdSpec Inputs.distractionDwell
          Config.HARD_BLOCK_THRESHOLD_SECONDS ≤
          Inputs.distractionDwell.time_on_current_seconds then "hard_block"
       else if InterventionAgent.adjustedThresholdSpec Inputs.distractionDwell
          Config.SOFT_BLOCK_THRESHOLD_SECONDS ≤
          Inputs.distractionDwell.time_on_current_seconds then "soft_block"
       else if InterventionAgent.adjustedThresholdSpec Inputs.distractionDwell
          Config.WARN_THRESHOLD_SECONDS ≤
          Inputs.distractionDwell.time_on_current_seconds then "warn"
       else if InterventionAgent.adjustedThresholdSpec Inputs.distractionDwell
          Config.NUDGE_THRESHOLD_SECONDS ≤
          Inputs.distractionDwell.time_on_current_seconds then "nudge"
       else "none") := by
  have hclass : Inputs.distractionDwell.context_classification.getD "neutral" = "distraction" := by
    decide
  have hconf : (0.3 : ℚ) ≤ Inputs.distractionDwell.context_confidence.getD 0 := by
    norm_num [Inputs.distractionDwell, Option.getD]
  exact ⟨⟨hclass, hconf⟩,
    (intervention_threshold_policy Inputs.distractionDwell hclass hconf).2.1⟩

/-- C10: with everything but the dwell time fixed, the intervention level of
a confident-distraction input is monotonically non-decreasing in the dwell
time, under the escalation order of `config.INTERVENTION_LEVELS`. -/
theorem intervention_level_monotone (inp : InterventionAgent.InterventionInput) (t1 t2 : ℤ)
    (h12 : t1 ≤ t2)
    (hclass : inp.context_classification.getD "neutral" = "distraction")
    (hconf : 0.3 ≤ inp.context_confidence.getD 0) :
    InterventionAgent.levelRank
        (InterventionAgent.analyze { inp with time_on_current_seconds := t1 }).level ≤
      InterventionAgent.levelRank
        (InterventionAgent.analyze { inp with time_on_current_seconds := t2 }).level := by
  have hgate : ∀ t : ℤ, ¬(({ inp with time_on_current_seconds := t } :
      InterventionAgent.InterventionInput).context_classification.getD "neutral" ≠ "distraction" ∨
      ({ inp with time_on_current_seconds := t} :
      InterventionAgent.InterventionInput).context_confidence.getD 0 < 0.3) := by
    intro t
    push_neg
    exact ⟨hclass, hconf⟩
  rw [intervention_analyze_eq_spec, intervention_analyze_eq_spec]
  unfold InterventionAgent.analyzeSpec
  rw [if_neg (hgate t1), if_neg (hgate t2)]
  have hthr : ∀ b : ℤ, InterventionAgent.adjustedThresholdSpec
      { inp with time_on_current_seconds := t1 } b =
      InterventionAgent.adjustedThresholdSpec { inp with time_on_current_seconds := t2 } b :=
    fun _ => rfl
  simp only [hthr]
  split_ifs <;>
    simp only [levelRank_none, levelRank_nudge, levelRank_warn, levelRank_soft,
      levelRank_hard] <;>
    omega

/-- Witness for C10 at dwell times 0 and 1000 seconds. -/
theorem intervention_level_monotone_witness :
    ((0 : ℤ) ≤ 1000 ∧
     Inputs.distractionDwell.context_classification.getD "neutral" = "distraction" ∧
     0.3 ≤ Inputs.distractionDwell.context_confidence.getD 0) ∧
    InterventionAgent.levelRank
        (InterventionAgent.analyze
          { Inputs.distractionDwell with time_on_current_seconds := 0 }).level ≤
      InterventionAgent.levelRank
        (InterventionAgent.analyze
          { Inputs.distractionDwell with time_on_current_seconds := 1000 }).level := by
  have hclass : Inputs.distractionDwell.context_classification.getD "neutral" = "distraction" := by
    decide
  have hconf : (0.3 : ℚ) ≤ Inputs.distractionDwell.context_confidence.getD 0 := by
    norm_num [Inputs.distractionDwell, Option.getD]
  exact ⟨⟨by norm_num, hclass, hconf⟩,
    intervention_level_monotone Inputs.distractionDwell 0 1000 (by norm_num) hclass hconf⟩

theorem mem_insertByDesc {α : Type} (key : α → ℚ) (x z : α) :
    ∀ l : List α, (z ∈ PatternAgent.insertByDesc key x l ↔ z = x ∨ z ∈ l)
  | [] => by simp [PatternAgent.insertByDesc]
  | y :: ys => by
    rw [PatternAgent.insertByDesc]
    split_ifs
    · rw [List.mem_cons, mem_insertByDesc key x z ys, List.mem_cons]
      tauto
    · simp only [List.mem_cons]
      try tauto

theorem pairwise_insertByDesc {α : Type} (key : α → ℚ) (x : α) :
    ∀ l : List α, l.Pairwise (fun a b => key b ≤ key a) →
      (PatternAgent.insertByDesc key x l).Pairwise (fun a b => key b ≤ key a)
  | [], _ => by simp [PatternAgent.insertByDesc]
  | y :: ys, h => by
    rw [PatternAgent.insertByDesc]
    rw [List.pairwise_cons] at h
    split_ifs with hxy
    · rw [List.pairwise_cons]
      constructor
      · intro z hz
        rcases (mem_insertByDesc key x z ys).mp hz with rfl | hz'
        · exact hxy
        · exact h.1 z hz'
      · exact pairwise_insertByDesc key x ys h.2
    · rw [List.pairwise_cons]
      constructor
      · intro z hz
        rcases List.mem_cons.mp hz with rfl | hz'
        · linarith [not_le.mp hxy]
        · have h1 := h.1 z hz'
          have h2 := not_le.mp hxy
          linarith
      · exact List.pairwise_cons.mpr h

theorem pairwise_foldl_insertByDesc {α : Type} (key : α → ℚ) :
    ∀ l acc : List α, acc.Pairwise (fun a b => key b ≤ key a) →
      (l.foldl (fun acc x => PatternAgent.insertByDesc key x acc) acc).Pairwise
        (fun a b => key b ≤ key a)
  | [], _, h => h
  | x :: xs, acc, h =>
    pairwise_foldl_insertByDesc key xs (PatternAgent.insertByDesc key x acc)
      (pairwise_insertByDesc key x acc h)

theorem pairwise_sortByDesc {α : Type} (key : α → ℚ) (l : List α) :
    (PatternAgent.sortByDesc key l).Pairwise (fun a b => key b ≤ key a) :=
  pairwise_foldl_insertByDesc key l [] List.Pairwise.nil

theorem filter_take_of_pairwise {α : Type} (key : α → ℚ) (p : α → Bool)
    (hmono : ∀ a b, key b ≤ key a → p b = true → p a = true) :
    ∀ l : List α, l.Pairwise (fun a b => key b ≤ key a) →
      ∀ n : ℕ, (l.take n).filter p = (l.filter p).take n
  | [], _, n => by simp
  | x :: xs, _, 0 => by simp
  | x :: xs, h, n + 1 => by
    rw [List.pairwise_cons] at h
    rw [List.take_succ_cons, List.filter_cons, List.filter_cons]
    cases hp : p x with
    | true =>
      rw [if_pos rfl, if_pos rfl, List.take_succ_cons]
      exact congrArg (x :: ·) (filter_take_of_pairwise key p hmono xs h.2 n)
    | false =>
      rw [if_neg Bool.false_ne_true, if_neg Bool.false_ne_true]
      have hxs : ∀ a ∈ xs, ¬ p a = true := by
        intro a ha hpa
        have := hmono x a (h.1 a ha) hpa
        rw [hp] at this
        exact Bool.false_ne_true this
      have h1 : (xs.take n).filter p = [] := by
        rw [List.filter_eq_nil_iff]
        intro a ha
        exact hxs a (List.take_subset n xs ha)
      have h2 : xs.filter p = [] := by
        rw [List.filter_eq_nil_iff]
        exact hxs
      rw [h1, h2, List.take_nil]

/-- C7: the distraction-chain miner equals its spec-side formulation — over
the chronologically ordered domain subsequence of distraction events, the
most frequent trigrams with count ≥ 2 (up to 5) are reported first,
followed by the most frequent bigrams with count ≥ 3 (up to 5), self-loop
bigrams and single-domain trigrams excluded — and on the nine-event
youtube → reddit → instagram spiral the first reported chain is the
trigram [youtube.com, reddit.com, instagram.com] (whose count is 3 ≥ 2). -/
theorem distraction_chains_spec :
    (∀ events : List PatternAgent.BrowseEvent,
      PatternAgent.detect_distraction_chains events = PatternAgent.chains_spec events) ∧
    (PatternAgent.detect_distraction_chains Inputs.spiralEvents).head? =
      some ["youtube.com", "reddit.com", "instagram.com"] := by
  constructor
  · intro events
    simp only [PatternAgent.detect_distraction_chains, PatternAgent.chains_spec]
    split_ifs with h
    · rfl
    · simp only [PatternAgent.mostCommon]
      have hmono3 : ∀ a b : (String × String × String) × ℕ,
          (b.2 : ℚ) ≤ (a.2 : ℚ) →
          decide (2 ≤ b.2) = true → decide (2 ≤ a.2) = true := by
        intro a b hab hb
        simp only [decide_eq_true_iff] at hb ⊢
        have hba : b.2 ≤ a.2 := by exact_mod_cast hab
        omega
      have hmono2 : ∀ a b : (String × String) × ℕ,
          (b.2 : ℚ) ≤ (a.2 : ℚ) →
          decide (3 ≤ b.2) = true → decide (3 ≤ a.2) = true := by
        intro a b hab hb
        simp only [decide_eq_true_iff] at hb ⊢
        have hba : b.2 ≤ a.2 := by exact_mod_cast hab
        omega
      have htri := filter_take_of_pairwise (fun p => (p.2 : ℚ))
        (fun tc => decide (2 ≤ tc.2)) hmono3
        (PatternAgent.sortByDesc (fun p => (p.2 : ℚ))
          (PatternAgent.tally (PatternAgent.trigramList (PatternAgent.chainSequence events))))
        (pairwise_sortByDesc _ _) 5
      have hbig := filter_take_of_pairwise (fun p => (p.2 : ℚ))
        (fun pc => decide (3 ≤ pc.2)) hmono2
        (PatternAgent.sortByDesc (fun p => (p.2 : ℚ))
          (PatternAgent.tally (PatternAgent.bigramList (PatternAgent.chainSequence events))))
        (pairwise_sortByDesc _ _) 5
      rw [htri, hbig]
  · simp [PatternAgent.detect_distraction_chains, PatternAgent.chainSequence,
      Inputs.spiralEvents, Inputs.distractionEvent, PatternAgent.evDomain,
      PatternAgent.evIsDistraction, PatternAgent.DISTRACTION_DOMAINS,
      PatternAgent.bigramList, PatternAgent.trigramList, PatternAgent.tally,
      PatternAgent.bump, PatternAgent.mostCommon, PatternAgent.sortByDesc,
      PatternAgent.insertByDesc]
    norm_num
    exact ⟨_, _, _, ⟨rfl, rfl, rfl⟩, rfl, rfl, rfl⟩

/-- C8 (divergence witness): on the ambiguous domain youtube.com with the
generic title "YouTube", no study topic, no session, empty trajectory and no
external classifier, ContextScorer returns classification "neutral" with
context score 0 — not "distraction" as the spec and the repository's own
test expect.  (With Python `re`, no study, distraction or adult keyword
pattern matches "YouTube", which the instantiated oracle reflects.) -/
theorem context_youtube_homepage_neutral :
    (ContextAgent.analyze Inputs.noRegexMatch false Inputs.noLLMOracle
        Inputs.youtubeHomepage).classification = "neutral" ∧
    (ContextAgent.analyze Inputs.noRegexMatch false Inputs.noLLMOracle
        Inputs.youtubeHomepage).context_score = 0 := by
  constructor
  · simp [ContextAgent.analyze, ContextAgent.scoresOf, ContextAgent.topic_relevanceOf,
      ContextAgent.titleScoreOf, ContextAgent.score_domain,
      ContextAgent.score_title_regex, ContextAgent.score_trajectory,
      Inputs.youtubeHomepage, Inputs.noRegexMatch, Inputs.noLLMOracle,
      ContextAgent.MIXED_DOMAINS, ContextAgent.ADULT_DOMAINS, ContextAgent.STUDY_DOMAINS,
      ContextAgent.DISTRACTION_DOMAINS]
    norm_num
  · simp [ContextAgent.analyze, ContextAgent.scoresOf, ContextAgent.topic_relevanceOf,
      ContextAgent.titleScoreOf, ContextAgent.score_domain,
      ContextAgent.score_title_regex, ContextAgent.score_trajectory,
      Inputs.youtubeHomepage, Inputs.noRegexMatch, Inputs.noLLMOracle,
      ContextAgent.MIXED_DOMAINS, ContextAgent.ADULT_DOMAINS, ContextAgent.STUDY_DOMAINS,
      ContextAgent.DISTRACTION_DOMAINS, round3]
    norm_num

end AdaptiFocus
